import Mathlib

/-!
Shallow embedding of the egui-d3d11 render-integration layer
(repository `egui-d3d11`, sources under `src/egui-d3d11/src/`).

Conventions of the embedding:
* `f32`/`f64` values are modelled as `ℚ`.  Every claim that reads a
  floating-point value does so at inputs where the source arithmetic is
  exact (halving of even screen sizes, integer pixel coordinates,
  quarter-integer rectangle corners), so the rational model agrees with
  the IEEE computation there.
* Direct3D COM objects (`ID3D11...`) are opaque handles, modelled as `Nat`.
* Stateful code is modelled by explicit state passing; calls that can
  panic are modelled with `Option` (`none` = process abort).
* The sRGB→linear color conversion performed by `Rgba::from(Color32)`
  is transcendental floating point; no claim reads color components, so
  vertices carry the source `Color32` value through unchanged.
-/

namespace EguiD3D11

/-- Structure `egui::Pos2`: a 2d point, components modelled as `ℚ`. -/
structure Pos2 where
  x : ℚ
  y : ℚ
deriving DecidableEq, Repr

/-- Structure `egui::Rect` with `min`/`max` corners. -/
structure Rect where
  min : Pos2
  max : Pos2
deriving DecidableEq, Repr

/-- Type `egui::TextureId`: the reserved font-atlas id `Egui`, or a user id. -/
inductive TextureId where
  | egui : TextureId
  | user : Nat → TextureId
deriving DecidableEq, Repr

/-- Type `egui::Color32`: a packed sRGB color, kept opaque (packed value). -/
def Color32 : Type := Nat
deriving instance DecidableEq, Repr for Color32

/-- Structure `egui::epaint::Vertex`: position, uv and sRGB color. -/
structure Vertex where
  pos : Pos2
  uv : Pos2
  color : Color32
deriving DecidableEq, Repr

/-- Structure `egui::epaint::Mesh`: the fields read by this layer. -/
structure Mesh where
  indices : List Nat
  vertices : List Vertex
  texture_id : TextureId
deriving DecidableEq, Repr

/-- Type `egui::ClippedMesh`: a pair of a clip `Rect` (field `.0`) and a
`Mesh` (field `.1`). -/
structure ClippedMesh where
  rect : Rect
  mesh : Mesh
deriving DecidableEq, Repr

namespace MeshMod

/-- Structure `GpuVertex` from `mesh.rs`: position, uv, color.  The source
converts the color to linear `Rgba`; the conversion is floating-point
transcendental and no claim reads it, so the source color value is carried. -/
structure GpuVertex where
  pos : Pos2
  uv : Pos2
  color : Color32
deriving DecidableEq, Repr

/-- Function `GpuVertex::from(Vertex)` in `mesh.rs`. -/
def GpuVertex.ofVertex (v : Vertex) : GpuVertex :=
  { pos := v.pos, uv := v.uv, color := v.color }

/-- Structure `GpuMesh` from `mesh.rs`. -/
structure GpuMesh where
  vertices : List GpuVertex
  indices : List Nat
  tex_id : TextureId
  rect : Rect
deriving DecidableEq, Repr

/-- Function `GpuMesh::from(ClippedMesh)` in `mesh.rs`: converts every
vertex, keeps the index list, texture id and clip rect. -/
def GpuMesh.ofClipped (cm : ClippedMesh) : GpuMesh :=
  { vertices := cm.mesh.vertices.map GpuVertex.ofVertex
    tex_id := cm.mesh.texture_id
    indices := cm.mesh.indices
    rect := cm.rect }

/-- Function `convert_meshes` in `mesh.rs` (lines 112-118), translated
literally: the filter keeps a clipped mesh when `indices.is_empty()`
AND `indices.len() % 3 == 0`, then maps `GpuMesh::from` over the kept
meshes. -/
def convert_meshes (clipped : List ClippedMesh) : List GpuMesh :=
  (clipped.filter fun m => m.mesh.indices.isEmpty && m.mesh.indices.length % 3 == 0).map
    GpuMesh.ofClipped

end MeshMod

namespace App

open MeshMod

/-- Function `DirectX11App::normalize_meshes` in `app.rs` (lines 148-163),
with the screen size passed explicitly (the source queries it from the
window).  Each vertex position has half the screen size subtracted and is
then divided by `screen_half.x` resp. `-screen_half.y`; the mesh's clip
`rect` is not touched (the iteration runs over `m.vertices` only). -/
def normalize_meshes (screen : Pos2) (meshes : List GpuMesh) : List GpuMesh :=
  let halfx : ℚ := screen.x / 2
  let halfy : ℚ := screen.y / 2
  meshes.map fun m =>
    { m with
      vertices := m.vertices.map fun v =>
        { v with pos := { x := (v.pos.x - halfx) / halfx, y := (v.pos.y - halfy) / (-halfy) } } }

/-- Truncation toward zero, the semantics of Rust's `f32 as i32` cast used
in `render_meshes` for the scissor rectangle (`Int.div` divides toward
zero and the denominator of a `ℚ` is positive). -/
def ratTrunc (q : ℚ) : ℤ :=
  Int.tdiv q.num q.den

/-- Structure `RECT` as filled in `render_meshes` for `RSSetScissorRects`. -/
structure ScissorRect where
  left : ℤ
  top : ℤ
  right : ℤ
  bottom : ℤ
deriving DecidableEq, Repr

/-- Scissor rectangle bound for one mesh in `render_meshes` (app.rs lines
274-282): each corner coordinate of `mesh.rect` cast with `as _` to a
32-bit integer, i.e. truncated toward zero. -/
def scissor_of (m : GpuMesh) : ScissorRect :=
  { left := ratTrunc m.rect.min.x
    top := ratTrunc m.rect.min.y
    right := ratTrunc m.rect.max.x
    bottom := ratTrunc m.rect.max.y }

/-- Scissor rectangles as `render_meshes` derives them: the mesh list is
first normalized (app.rs line 239), then the scissor rect of each mesh is
taken from its `rect` field inside the draw loop. -/
def render_scissors (screen : Pos2) (meshes : List GpuMesh) : List ScissorRect :=
  (normalize_meshes screen meshes).map scissor_of

/-- Rounding to the nearest integer, following the spec's words for claim
C5 ("rounded toward the nearest integer pixel"); compared against the
truncation the source performs. -/
def ratRoundNearest (q : ℚ) : ℤ :=
  round q

end App

namespace Resize

/-- Observable steps of `DirectX11App::resize_buffers` (app.rs lines
400-427), in the order the source performs them: drop the held render
target view in place, invoke the caller-supplied original resize
callback, fetch the new back buffer from the swap chain, create a fresh
render target view and store it in the lock. -/
inductive ResizeEvent where
  | release_view : Nat → ResizeEvent
  | call_original : ResizeEvent
  | get_back_buffer : ResizeEvent
  | create_view : Nat → ResizeEvent
deriving DecidableEq, Repr

/-- State of the render-target tracker: the handle of the view currently
held under `render_view`, and a supply counter for fresh view handles
(`CreateRenderTargetView` always returns a view object distinct from any
live one, which the counter models). -/
structure RenderTargetState where
  view : Nat
  next_handle : Nat
deriving DecidableEq, Repr

/-- Function `DirectX11App::resize_buffers`: releases the current view
(`drop_in_place`), runs the original callback, gets the back buffer,
creates a new view and assigns it.  Returns the new state and the trace
of steps in program order. -/
def resize_buffers (s : RenderTargetState) : RenderTargetState × List ResizeEvent :=
  ({ view := s.next_handle, next_handle := s.next_handle + 1 },
   [ResizeEvent.release_view s.view, ResizeEvent.call_original,
    ResizeEvent.get_back_buffer, ResizeEvent.create_view s.next_handle])

end Resize

namespace Backup

open App (ScissorRect)

/-- Structure `D3D11_VIEWPORT` (value struct saved and restored verbatim). -/
structure Viewport where
  top_left_x : ℚ
  top_left_y : ℚ
  width : ℚ
  height : ℚ
  min_depth : ℚ
  max_depth : ℚ
deriving DecidableEq, Repr

/-- Pipeline bindings of the device context that `InnerState::save` reads
and `InnerState::restore` writes (backup.rs).  COM objects are opaque
`Nat` handles inside `Option` (D3D allows null bindings); the per-stage
class-instance arrays are the lists of instances bound at that stage. -/
structure PipelineState where
  scissor_rects : List ScissorRect
  viewports : List Viewport
  raster_state : Option Nat
  blend_state : Option Nat
  blend_factor : List ℚ
  blend_mask : Nat
  depth_stencil_state : Option Nat
  stencil_ref : Nat
  pixel_shader_resource : Option Nat
  sampler : Option Nat
  vertex_shader : Option Nat
  vertex_shader_instances : List Nat
  geometry_shader : Option Nat
  geometry_shader_instances : List Nat
  pixel_shader : Option Nat
  pixel_shader_instances : List Nat
  constant_buffer : Option Nat
  primitive_topology : Nat
  index_buffer : Option Nat
  index_buffer_format : Nat
  index_buffer_offset : Nat
  vertex_buffer : Option Nat
  vertex_buffer_strides : Nat
  vertex_buffer_offsets : Nat
  input_layout : Option Nat
deriving DecidableEq, Repr

/-- Method `ClassInstances::release` in backup.rs (lines 199-202):
`self.0.iter().for_each(drop)` iterates the array by shared reference
and drops the references themselves; the array contents (and the COM
references they hold) are unchanged, so as a state transformer on the
instance array it is the identity. -/
def ClassInstances.release (a : List Nat) : List Nat := a

/-- Structure `InnerState` in backup.rs: the snapshot record, field for
field (two source spelling quirks, `geomentry_...count` and
`index_buffer_offest`, are kept). -/
structure InnerState where
  scissor_rects : List ScissorRect
  scissor_count : Nat
  viewports : List Viewport
  viewport_count : Nat
  raster_state : Option Nat
  blend_state : Option Nat
  blend_factor : List ℚ
  blend_mask : Nat
  depth_stencil_state : Option Nat
  stencil_ref : Nat
  pixel_shader_resource : Option Nat
  sampler : Option Nat
  vertex_shader : Option Nat
  vertex_shader_instances : List Nat
  vertex_shader_instances_count : Nat
  geometry_shader : Option Nat
  geometry_shader_instances : List Nat
  geomentry_shader_instances_count : Nat
  pixel_shader : Option Nat
  pixel_shader_instances : List Nat
  pixel_shader_instances_count : Nat
  constant_buffer : Option Nat
  primitive_topology : Nat
  index_buffer : Option Nat
  index_buffer_format : Nat
  index_buffer_offest : Nat
  vertex_buffer : Option Nat
  vertex_buffer_strides : Nat
  vertex_buffer_offsets : Nat
  input_layout : Option Nat
deriving DecidableEq, Repr

/-- Value `RECT::default()`: a zeroed rectangle. -/
def zeroScissorRect : ScissorRect :=
  { left := 0, top := 0, right := 0, bottom := 0 }

/-- Value `D3D11_VIEWPORT::default()`: a zeroed viewport. -/
def zeroViewport : Viewport :=
  { top_left_x := 0, top_left_y := 0, width := 0, height := 0, min_depth := 0, max_depth := 0 }

/-- Value `InnerState::default()`: the `Default` derive in the source
zeroes the fixed arrays (16 entries each, the pipeline maximum
`D3D11_VIEWPORT_AND_SCISSORRECT_OBJECT_COUNT_PER_PIPELINE`), the counts
and the offsets, and nulls the COM references. -/
def InnerState.default : InnerState :=
  { scissor_rects := List.replicate 16 zeroScissorRect, scissor_count := 0
    viewports := List.replicate 16 zeroViewport, viewport_count := 0
    raster_state := none
    blend_state := none, blend_factor := [0, 0, 0, 0], blend_mask := 0
    depth_stencil_state := none, stencil_ref := 0
    pixel_shader_resource := none
    sampler := none
    vertex_shader := none, vertex_shader_instances := [], vertex_shader_instances_count := 0
    geometry_shader := none, geometry_shader_instances := [], geomentry_shader_instances_count := 0
    pixel_shader := none, pixel_shader_instances := [], pixel_shader_instances_count := 0
    constant_buffer := none, primitive_topology := 0
    index_buffer := none, index_buffer_format := 0, index_buffer_offest := 0
    vertex_buffer := none, vertex_buffer_strides := 0, vertex_buffer_offsets := 0
    input_layout := none }

/-- Method `InnerState::save` (backup.rs lines 85-132): every `Get` call
copies the corresponding context binding into the snapshot.
`RSGetScissorRects` and `RSGetViewports` take their count argument
in/out: on input it is the capacity of the caller's array, on output the
number actually bound.  The source passes `&mut self.scissor_count` /
`&mut self.viewport_count` WITHOUT presetting them, so the capacity is
whatever the snapshot held before — 0 on the first save (from
`derive(Default)`), the previous frame's bound count afterwards — and
only that many entries are copied over the array prefix; the rest of
the array keeps its old contents.  The shader `Get` calls do preset
their counts to 256 (the instance-array capacity) before each call, so
the class-instance data is captured in full and the counts are
overwritten with the number of bound instances. -/
def InnerState.save (st : InnerState) (ctx : PipelineState) : InnerState :=
  let scissorsCopied := ctx.scissor_rects.take st.scissor_count
  let viewportsCopied := ctx.viewports.take st.viewport_count
  { scissor_rects := scissorsCopied ++ st.scissor_rects.drop scissorsCopied.length
    scissor_count := ctx.scissor_rects.length
    viewports := viewportsCopied ++ st.viewports.drop viewportsCopied.length
    viewport_count := ctx.viewports.length
    raster_state := ctx.raster_state
    blend_state := ctx.blend_state
    blend_factor := ctx.blend_factor
    blend_mask := ctx.blend_mask
    depth_stencil_state := ctx.depth_stencil_state
    stencil_ref := ctx.stencil_ref
    pixel_shader_resource := ctx.pixel_shader_resource
    sampler := ctx.sampler
    pixel_shader := ctx.pixel_shader
    pixel_shader_instances := ctx.pixel_shader_instances
    pixel_shader_instances_count := ctx.pixel_shader_instances.length
    vertex_shader := ctx.vertex_shader
    vertex_shader_instances := ctx.vertex_shader_instances
    vertex_shader_instances_count := ctx.vertex_shader_instances.length
    geometry_shader := ctx.geometry_shader
    geometry_shader_instances := ctx.geometry_shader_instances
    geomentry_shader_instances_count := ctx.geometry_shader_instances.length
    constant_buffer := ctx.constant_buffer
    primitive_topology := ctx.primitive_topology
    index_buffer := ctx.index_buffer
    index_buffer_format := ctx.index_buffer_format
    index_buffer_offest := ctx.index_buffer_offset
    vertex_buffer := ctx.vertex_buffer
    vertex_buffer_strides := ctx.vertex_buffer_strides
    vertex_buffer_offsets := ctx.vertex_buffer_offsets
    input_layout := ctx.input_layout }

/-- Method `InnerState::restore` (backup.rs lines 135-183): every `Set`
call writes the snapshot field back to the context (the array-valued
calls pass a pointer plus the saved count, hence `List.take count`);
each `Option::take()` leaves `none` behind in the snapshot, and each
`ClassInstances::release()` is applied to its instance array (see
`ClassInstances.release`).  Returns the snapshot as left behind and the
context as rewritten. -/
def InnerState.restore (st : InnerState) (_ctx : PipelineState) :
    InnerState × PipelineState :=
  ({ st with
      raster_state := none
      blend_state := none
      depth_stencil_state := none
      pixel_shader_resource := none
      sampler := none
      pixel_shader := none
      pixel_shader_instances := ClassInstances.release st.pixel_shader_instances
      vertex_shader := none
      vertex_shader_instances := ClassInstances.release st.vertex_shader_instances
      geometry_shader := none
      geometry_shader_instances := ClassInstances.release st.geometry_shader_instances
      index_buffer := none
      vertex_buffer := none
      input_layout := none },
   { scissor_rects := st.scissor_rects.take st.scissor_count
     viewports := st.viewports.take st.viewport_count
     raster_state := st.raster_state
     blend_state := st.blend_state
     blend_factor := st.blend_factor
     blend_mask := st.blend_mask
     depth_stencil_state := st.depth_stencil_state
     stencil_ref := st.stencil_ref
     pixel_shader_resource := st.pixel_shader_resource
     sampler := st.sampler
     pixel_shader := st.pixel_shader
     pixel_shader_instances := st.pixel_shader_instances.take st.pixel_shader_instances_count
     vertex_shader := st.vertex_shader
     vertex_shader_instances := st.vertex_shader_instances.take st.vertex_shader_instances_count
     geometry_shader := st.geometry_shader
     geometry_shader_instances :=
       st.geometry_shader_instances.take st.geomentry_shader_instances_count
     constant_buffer := st.constant_buffer
     primitive_topology := st.primitive_topology
     index_buffer := st.index_buffer
     index_buffer_format := st.index_buffer_format
     index_buffer_offset := st.index_buffer_offest
     vertex_buffer := st.vertex_buffer
     vertex_buffer_strides := st.vertex_buffer_strides
     vertex_buffer_offsets := st.vertex_buffer_offsets
     input_layout := st.input_layout })

end Backup

namespace Texture

/-- Type `egui::ImageData`: either a four-channel color image or a
single-channel alpha image; `pixels` is the row-major pixel list (each
pixel one packed value). -/
inductive ImageData where
  | color : Nat → Nat → List Nat → ImageData
  | alpha : Nat → Nat → List Nat → ImageData
deriving DecidableEq, Repr

/-- Image width (`ImageData::width`). -/
def ImageData.width : ImageData → Nat
  | ImageData.color w _ _ => w
  | ImageData.alpha w _ _ => w

/-- Image height (`ImageData::height`). -/
def ImageData.height : ImageData → Nat
  | ImageData.color _ h _ => h
  | ImageData.alpha _ h _ => h

/-- Structure `egui::epaint::ImageDelta` as consumed by `resolve_delta`:
the new image data and the optional sub-region origin `pos`. -/
structure ImageDelta where
  image : ImageData
  pos : Option (Nat × Nat)
deriving DecidableEq, Repr

/-- Structure `egui::TexturesDelta`: entries to set and ids to free. -/
structure TexturesDelta where
  set : List (TextureId × ImageDelta)
  free : List TextureId
deriving DecidableEq, Repr

/-- Row-major in-place patch of a sub-region, as `AllocatedTexture::update`
performs on the mapped GPU memory: the stored snapshot's pixels are
copied in full, then pixel `(px, py)` of the region (origin `(x, y)`,
extent `w × h` from the delta image) is overwritten with the delta's
pixel `(py - y) * w + (px - x)`. -/
def patchPixels (base : List Nat) (baseW : Nat) (x y w h : Nat)
    (newPixels : List Nat) : List Nat :=
  base.mapIdx fun j p =>
    let px := j % baseW
    let py := j / baseW
    if x ≤ px ∧ px < x + w ∧ y ≤ py ∧ py < y + h then
      newPixels.getD ((py - y) * w + (px - x)) p
    else p

/-- Structure `AllocatedTexture` in texture.rs: the shader resource view
(opaque handle), the GPU texture contents (modelled at the image level),
and the source image snapshot kept for partial updates. -/
structure AllocatedTexture where
  resource : Nat
  gpu : ImageData
  image : ImageData
deriving DecidableEq, Repr

/-- Method `AllocatedTexture::update` (texture.rs lines 30-78): maps the
GPU texture, copies the stored snapshot `self.image` into it, then
writes the delta image into the sub-region at origin `[x, y]`.  Matching
formats only; the mismatched-format arm is `unreachable!()`, a process
abort, modelled as `none`.  Note the source leaves `self.image`
unchanged. -/
def AllocatedTexture.update (tex : AllocatedTexture) (region : Nat × Nat)
    (delta : ImageData) : Option AllocatedTexture :=
  match tex.image, delta with
  | ImageData.color w h pix, ImageData.color nw nh npix =>
    some { tex with gpu :=
      ImageData.color w h (patchPixels pix w region.1 region.2 nw nh npix) }
  | ImageData.alpha w h pix, ImageData.alpha nw nh npix =>
    some { tex with gpu :=
      ImageData.alpha w h (patchPixels pix w region.1 region.2 nw nh npix) }
  | _, _ => none

/-- Allocated-texture map, modelled as an association list keyed by
`TextureId` (the source's `HashMap` under its mutex). -/
def TexMap : Type := List (TextureId × AllocatedTexture)
deriving instance DecidableEq, Repr for TexMap

/-- Lookup in the allocated map (`HashMap::get_mut`). -/
def TexMap.find (m : TexMap) (id : TextureId) : Option AllocatedTexture :=
  (m.find? fun e => e.1 = id).map Prod.snd

/-- Removal from the allocated map (`HashMap::remove`, the freed value is
dropped). -/
def TexMap.remove (m : TexMap) (id : TextureId) : TexMap :=
  m.filter fun e => ¬ e.1 = id

/-- Insertion (`HashMap::insert`): replaces any previous entry for the id. -/
def TexMap.insert (m : TexMap) (id : TextureId) (t : AllocatedTexture) : TexMap :=
  (id, t) :: TexMap.remove m id

/-- Replacement of the entry found by `get_mut` (in-place mutation of the
mapped value in the source). -/
def TexMap.replace (m : TexMap) (id : TextureId) (t : AllocatedTexture) : TexMap :=
  m.map fun e => if e.1 = id then (e.1, t) else e

/-- Function `TextureAllocator::allocate_texture` (texture.rs lines
115-124): creates a GPU texture initialized with the full image and a
shader resource view for it.  View handles are opaque; `0` stands for
the freshly created view. -/
def allocate_texture (image : ImageData) : AllocatedTexture :=
  { resource := 0, gpu := image, image := image }

/-- Step of `resolve_delta` for one `set` entry (texture.rs lines
105-112): when the delta has a sub-region origin AND the map already has
an entry for the id (`delta.pos.zip(lock.get_mut(&id))`), the existing
texture is updated in place; otherwise — including a sub-region delta
for an id with no existing entry — a brand-new texture is allocated
from the delta image and inserted. -/
def resolve_set_entry (m : TexMap) (id : TextureId) (d : ImageDelta) : Option TexMap :=
  match d.pos, TexMap.find m id with
  | some region, some tex =>
    (AllocatedTexture.update tex region d.image).map fun tex2 =>
      TexMap.replace m id tex2
  | _, _ => some (TexMap.insert m id (allocate_texture d.image))

/-- Function `TextureAllocator::resolve_delta` (texture.rs lines 93-113):
first removes every freed id, then folds the `set` entries through
`resolve_set_entry`.  `none` models a process abort (the source's
`unreachable!()` on a format mismatch). -/
def resolve_delta (m : TexMap) (delta : TexturesDelta) : Option TexMap :=
  let freed := delta.free.foldl TexMap.remove m
  delta.set.foldlM (fun acc e => resolve_set_entry acc e.1 e.2) freed

end Texture

namespace Input

/-- Win32 message and flag constants used by `input.rs` (values from
`windows::Win32::UI::WindowsAndMessaging`). -/
def WM_KEYDOWN : Nat := 0x0100
/-- Constant `WM_KEYUP`. -/
def WM_KEYUP : Nat := 0x0101
/-- Constant `WM_CHAR`. -/
def WM_CHAR : Nat := 0x0102
/-- Constant `WM_SYSKEYDOWN`. -/
def WM_SYSKEYDOWN : Nat := 0x0104
/-- Constant `WM_SYSKEYUP`. -/
def WM_SYSKEYUP : Nat := 0x0105
/-- Constant `WM_MOUSEMOVE`. -/
def WM_MOUSEMOVE : Nat := 0x0200
/-- Constant `WM_LBUTTONDOWN`. -/
def WM_LBUTTONDOWN : Nat := 0x0201
/-- Constant `WM_LBUTTONUP`. -/
def WM_LBUTTONUP : Nat := 0x0202
/-- Constant `WM_LBUTTONDBLCLK`. -/
def WM_LBUTTONDBLCLK : Nat := 0x0203
/-- Constant `WM_RBUTTONDOWN`. -/
def WM_RBUTTONDOWN : Nat := 0x0204
/-- Constant `WM_RBUTTONUP`. -/
def WM_RBUTTONUP : Nat := 0x0205
/-- Constant `WM_RBUTTONDBLCLK`. -/
def WM_RBUTTONDBLCLK : Nat := 0x0206
/-- Constant `WM_MBUTTONDOWN`. -/
def WM_MBUTTONDOWN : Nat := 0x0207
/-- Constant `WM_MBUTTONUP`. -/
def WM_MBUTTONUP : Nat := 0x0208
/-- Constant `WM_MBUTTONDBLCLK`. -/
def WM_MBUTTONDBLCLK : Nat := 0x0209
/-- Constant `WM_MOUSEWHEEL`. -/
def WM_MOUSEWHEEL : Nat := 0x020A
/-- Constant `WM_MOUSEHWHEEL`. -/
def WM_MOUSEHWHEEL : Nat := 0x020E
/-- Constant `MK_CONTROL`. -/
def MK_CONTROL : Nat := 0x0008
/-- Constant `MK_SHIFT`. -/
def MK_SHIFT : Nat := 0x0004
/-- Constant `WHEEL_DELTA`. -/
def WHEEL_DELTA : Nat := 120

/-- Type `egui::Key`, modelled by its `u8` discriminant (the source's
`get_key` builds a `Key` by `transmute` from the discriminant, so the
numeric representation is the faithful carrier).  In the egui revision
this crate pins, the variants are, in order: ArrowDown, ArrowLeft,
ArrowRight, ArrowUp, Escape, Tab, Backspace, Enter, Space, Insert,
Delete, Home, End, PageUp, PageDown, Num0..Num9, A..Z. -/
def Key : Type := Nat
deriving instance DecidableEq, BEq, Repr for Key

/-- Discriminant of `Key::ArrowDown`. -/
def Key.arrowDown : Key := (0 : Nat)
/-- Discriminant of `Key::ArrowLeft`. -/
def Key.arrowLeft : Key := (1 : Nat)
/-- Discriminant of `Key::ArrowRight`. -/
def Key.arrowRight : Key := (2 : Nat)
/-- Discriminant of `Key::ArrowUp`. -/
def Key.arrowUp : Key := (3 : Nat)
/-- Discriminant of `Key::Escape`. -/
def Key.escape : Key := (4 : Nat)
/-- Discriminant of `Key::Tab`. -/
def Key.tab : Key := (5 : Nat)
/-- Discriminant of `Key::Backspace`. -/
def Key.backspace : Key := (6 : Nat)
/-- Discriminant of `Key::Enter`. -/
def Key.enter : Key := (7 : Nat)
/-- Discriminant of `Key::Space`. -/
def Key.space : Key := (8 : Nat)
/-- Discriminant of `Key::Insert`. -/
def Key.insert : Key := (9 : Nat)
/-- Discriminant of `Key::Delete`. -/
def Key.del : Key := (10 : Nat)
/-- Discriminant of `Key::Home`. -/
def Key.home : Key := (11 : Nat)
/-- Discriminant of `Key::End`. -/
def Key.kEnd : Key := (12 : Nat)
/-- Discriminant of `Key::PageUp`. -/
def Key.pageUp : Key := (13 : Nat)
/-- Discriminant of `Key::PageDown`. -/
def Key.pageDown : Key := (14 : Nat)
/-- Discriminant of `Key::C` (letters run A = 25 .. Z = 50). -/
def Key.keyC : Key := (27 : Nat)
/-- Discriminant of `Key::V`. -/
def Key.keyV : Key := (46 : Nat)
/-- Discriminant of `Key::X`. -/
def Key.keyX : Key := (48 : Nat)

/-- Structure `egui::Modifiers`. -/
structure Modifiers where
  alt : Bool
  ctrl : Bool
  shift : Bool
  mac_cmd : Bool
  command : Bool
deriving DecidableEq, Repr

/-- Value `Modifiers::default()`: every flag false. -/
def Modifiers.mkDefault : Modifiers :=
  { alt := false, ctrl := false, shift := false, mac_cmd := false, command := false }

/-- Type `egui::PointerButton`. -/
inductive PointerButton where
  | primary : PointerButton
  | secondary : PointerButton
  | middle : PointerButton
deriving DecidableEq, Repr

/-- Type `egui::Event`, restricted to the variants `input.rs` produces. -/
inductive Event where
  | pointerMoved : Pos2 → Event
  | pointerButton : Pos2 → PointerButton → Bool → Modifiers → Event
  | text : String → Event
  | zoom : ℚ → Event
  | scroll : ℚ → ℚ → Event
  | key : Key → Bool → Modifiers → Event
  | copy : Event
  | cut : Event
deriving DecidableEq, Repr

/-- Predicate for `Event::Key` (used to state claim C7's "Key event"). -/
def Event.isKeyEvent : Event → Bool
  | Event.key _ _ _ => true
  | _ => false

/-- Environment of the collector: results of the ambient Win32 queries
(`GetAsyncKeyState` for control/shift, the clipboard read, the client
rect, the system time), which are inputs of the embedded functions. -/
structure Env where
  ctrl_down : Bool
  shift_down : Bool
  clipboard : Option String
  screen : Pos2
  time : ℚ
deriving DecidableEq, Repr

/-- Reinterpretation of a 16-bit pattern as `i16` (the `as i16` casts in
`get_pos` and the wheel-delta extraction). -/
def toI16 (n : Nat) : ℤ :=
  if n < 0x8000 then (n : ℤ) else (n : ℤ) - 0x10000

/-- Function `get_pos` (input.rs lines 204-209): low word of `lparam` is
x, the next word is y, each reinterpreted as `i16`.  `lparam` is carried
as its machine bit pattern (a `Nat`). -/
def get_pos (lparam : Nat) : Pos2 :=
  { x := (toI16 (lparam % 0x10000) : ℚ), y := (toI16 (lparam / 0x10000 % 0x10000) : ℚ) }

/-- Function `get_modifiers` (input.rs lines 211-219): ctrl/command from
`MK_CONTROL`, shift from `MK_SHIFT` in `wparam`. -/
def get_modifiers (wparam : Nat) : Modifiers :=
  { alt := false
    ctrl := wparam &&& MK_CONTROL != 0
    shift := wparam &&& MK_SHIFT != 0
    mac_cmd := false
    command := wparam &&& MK_CONTROL != 0 }

/-- Function `get_key_modifiers` (input.rs lines 221-232): ctrl and shift
from `GetAsyncKeyState` (the environment), alt exactly when the message
is `WM_SYSKEYDOWN`. -/
def get_key_modifiers (env : Env) (msg : Nat) : Modifiers :=
  { alt := msg == WM_SYSKEYDOWN
    mac_cmd := false
    command := env.ctrl_down
    shift := env.shift_down
    ctrl := env.ctrl_down }

/-- Function `get_key` (input.rs lines 234-257): digits `0x30..=0x39` map
to discriminant `wparam - 0x21` (Num0..Num9), letters `0x41..=0x5A` to
`wparam - 0x28` (A..Z), then the named virtual keys; anything else is
unrecognized. -/
def get_key (wparam : Nat) : Option Key :=
  if 0x30 ≤ wparam ∧ wparam ≤ 0x39 then some ((wparam - 0x21 : Nat) : Key)
  else if 0x41 ≤ wparam ∧ wparam ≤ 0x5A then some ((wparam - 0x28 : Nat) : Key)
  else if wparam = 0x28 then some Key.arrowDown
  else if wparam = 0x25 then some Key.arrowLeft
  else if wparam = 0x27 then some Key.arrowRight
  else if wparam = 0x26 then some Key.arrowUp
  else if wparam = 0x1B then some Key.escape
  else if wparam = 0x09 then some Key.tab
  else if wparam = 0x08 then some Key.backspace
  else if wparam = 0x0D then some Key.enter
  else if wparam = 0x20 then some Key.space
  else if wparam = 0x2D then some Key.insert
  else if wparam = 0x2E then some Key.del
  else if wparam = 0x24 then some Key.home
  else if wparam = 0x23 then some Key.kEnd
  else if wparam = 0x21 then some Key.pageUp
  else if wparam = 0x22 then some Key.pageDown
  else none

/-- Control characters in the sense of Rust's `char::is_control` (Unicode
category Cc): `U+0000..U+001F` and `U+007F..U+009F`. -/
def isControlCodepoint (n : Nat) : Bool :=
  n < 0x20 || (0x7F ≤ n && n ≤ 0x9F)

/-- Validity test of `char::from_u32` (a Unicode scalar value). -/
def isScalarValue (n : Nat) : Prop :=
  n < 0xD800 ∨ (0xDFFF < n ∧ n < 0x110000)

instance (n : Nat) : Decidable (isScalarValue n) := by
  unfold isScalarValue; infer_instance

/-- Wheel delta scaling shared by the two wheel arms: high word of
`wparam` as `i16`, times 10, divided by `WHEEL_DELTA`. -/
def wheelDelta (wparam : Nat) : ℚ :=
  (toI16 (wparam / 0x10000 % 0x10000) : ℚ) * 10 / (WHEEL_DELTA : ℚ)

/-- Method `InputCollector::process` (input.rs lines 39-151).  The event
queue is passed and returned explicitly (the source pushes under a
mutex); the returned `Bool` is the source's return value: `true` for
every recognized message arm, `false` from the default arm, which
leaves the queue untouched. -/
def process (env : Env) (events : List Event) (umsg wparam lparam : Nat) :
    List Event × Bool :=
  if umsg == WM_MOUSEMOVE then
    (events ++ [Event.pointerMoved (get_pos lparam)], true)
  else if umsg == WM_LBUTTONDOWN || umsg == WM_LBUTTONDBLCLK then
    (events ++ [Event.pointerButton (get_pos lparam) PointerButton.primary true
      (get_modifiers wparam)], true)
  else if umsg == WM_LBUTTONUP then
    (events ++ [Event.pointerButton (get_pos lparam) PointerButton.primary false
      (get_modifiers wparam)], true)
  else if umsg == WM_RBUTTONDOWN || umsg == WM_RBUTTONDBLCLK then
    (events ++ [Event.pointerButton (get_pos lparam) PointerButton.secondary true
      (get_modifiers wparam)], true)
  else if umsg == WM_RBUTTONUP then
    (events ++ [Event.pointerButton (get_pos lparam) PointerButton.secondary false
      (get_modifiers wparam)], true)
  else if umsg == WM_MBUTTONDOWN || umsg == WM_MBUTTONDBLCLK then
    (events ++ [Event.pointerButton (get_pos lparam) PointerButton.middle true
      (get_modifiers wparam)], true)
  else if umsg == WM_MBUTTONUP then
    (events ++ [Event.pointerButton (get_pos lparam) PointerButton.middle false
      (get_modifiers wparam)], true)
  else if umsg == WM_CHAR then
    (if isScalarValue wparam ∧ ¬ isControlCodepoint wparam then
      events ++ [Event.text (String.singleton (Char.ofNat wparam))]
    else events, true)
  else if umsg == WM_MOUSEWHEEL then
    (if wparam &&& MK_CONTROL != 0 then
      events ++ [Event.zoom (if wheelDelta wparam > 0 then 3 / 2 else 1 / 2)]
    else
      events ++ [Event.scroll 0 (wheelDelta wparam)], true)
  else if umsg == WM_MOUSEHWHEEL then
    (if wparam &&& MK_CONTROL != 0 then
      events ++ [Event.zoom (if wheelDelta wparam > 0 then 3 / 2 else 1 / 2)]
    else
      events ++ [Event.scroll (wheelDelta wparam) 0], true)
  else if umsg == WM_KEYDOWN || umsg == WM_SYSKEYDOWN then
    match get_key wparam with
    | none => (events, true)
    | some k =>
      let mods := get_key_modifiers env umsg
      if k == Key.space then (events ++ [Event.text " "], true)
      else if k == Key.keyV && mods.ctrl then
        match env.clipboard with
        | some s => (events ++ [Event.text s], true)
        | none => (events, true)
      else if k == Key.keyC && mods.ctrl then (events ++ [Event.copy], true)
      else if k == Key.keyX && mods.ctrl then (events ++ [Event.cut], true)
      else (events ++ [Event.key k true (get_key_modifiers env umsg)], true)
  else if umsg == WM_KEYUP || umsg == WM_SYSKEYUP then
    match get_key wparam with
    | none => (events, true)
    | some k => (events ++ [Event.key k false (get_key_modifiers env umsg)], true)
  else (events, false)

/-- Message ids the `process` match recognizes (every non-default arm). -/
def recognizedMsgs : List Nat :=
  [WM_MOUSEMOVE, WM_LBUTTONDOWN, WM_LBUTTONDBLCLK, WM_LBUTTONUP,
   WM_RBUTTONDOWN, WM_RBUTTONDBLCLK, WM_RBUTTONUP,
   WM_MBUTTONDOWN, WM_MBUTTONDBLCLK, WM_MBUTTONUP,
   WM_CHAR, WM_MOUSEWHEEL, WM_MOUSEHWHEEL,
   WM_KEYDOWN, WM_SYSKEYDOWN, WM_KEYUP, WM_SYSKEYUP]

/-- Structure `egui::RawInput` (the fields `collect_input` constructs). -/
structure RawInput where
  screen_rect : Option Rect
  time : Option ℚ
  pixels_per_point : Option ℚ
  predicted_dt : ℚ
  modifiers : Modifiers
  hovered_files : List Nat
  dropped_files : List Nat
  events : List Event
deriving DecidableEq, Repr

/-- Method `InputCollector::collect_input` (input.rs lines 153-166):
`mem::take` empties the queue; the snapshot carries the current screen
rect and time (from the environment), `pixels_per_point = 1`,
`predicted_dt = 1/60`, default modifiers and empty file lists.  Returns
the snapshot together with the queue left behind. -/
def collect_input (env : Env) (events : List Event) : RawInput × List Event :=
  ({ screen_rect := some { min := { x := 0, y := 0 }, max := env.screen }
     time := some env.time
     pixels_per_point := some 1
     predicted_dt := 1 / 60
     modifiers := Modifiers.mkDefault
     hovered_files := []
     dropped_files := []
     events := events },
   [])

/-- Method `DirectX11App::wnd_proc` (app.rs lines 431-434): forwards the
message to `process` and returns `true` unconditionally, discarding the
value `process` returned. -/
def wnd_proc (env : Env) (events : List Event) (umsg wparam lparam : Nat) :
    List Event × Bool :=
  ((process env events umsg wparam lparam).fst, true)

end Input

/-- Spec-side formula for claim C4 (spec §4.2): the claimed pixel-to-clip
map `clip.x = (pixel.x - width/2) / (width/2)`,
`clip.y = -(pixel.y - height/2) / (height/2)`; compared against
`normalize_meshes`. -/
def clipOfPixel (screen : Pos2) (p : Pos2) : Pos2 :=
  { x := (p.x - screen.x / 2) / (screen.x / 2)
    y := -((p.y - screen.y / 2) / (screen.y / 2)) }

/-- Concrete vertex fixture. -/
def v0 : Vertex :=
  { pos := { x := 0, y := 0 }, uv := { x := 0, y := 0 }, color := ((0 : Nat) : Color32) }

/-- Concrete tessellated draw with a valid triangle (index count 3). -/
def triangleDraw : ClippedMesh :=
  { rect := { min := { x := 0, y := 0 }, max := { x := 800, y := 600 } }
    mesh := { indices := [0, 1, 2], vertices := [v0, v0, v0], texture_id := TextureId.egui } }

/-- Concrete tessellated draw with index count 4 (not a multiple of 3). -/
def quadIdxDraw : ClippedMesh :=
  { rect := { min := { x := 0, y := 0 }, max := { x := 800, y := 600 } }
    mesh := { indices := [0, 1, 2, 2], vertices := [v0, v0, v0], texture_id := TextureId.egui } }

/-- Concrete tessellated draw with index count 0. -/
def emptyDraw : ClippedMesh :=
  { rect := { min := { x := 0, y := 0 }, max := { x := 800, y := 600 } }
    mesh := { indices := [], vertices := [v0], texture_id := TextureId.egui } }

/-- Concrete GPU mesh whose clip rect has corner (0, 0) and (800, 600). -/
def gm0 : MeshMod.GpuMesh :=
  { vertices := [], indices := [0, 1, 2], tex_id := TextureId.egui
    rect := { min := { x := 0, y := 0 }, max := { x := 800, y := 600 } } }

/-- Concrete GPU mesh whose clip rect has the fractional corner
`max.x = 2.75` (exactly representable in `f32`). -/
def gm1 : MeshMod.GpuMesh :=
  { vertices := [], indices := [0, 1, 2], tex_id := TextureId.egui
    rect := { min := { x := 0, y := 0 }, max := { x := 11 / 4, y := 600 } } }

/-- Concrete pipeline state at save time: one scissor rect, one viewport,
every binding non-null, one vertex-shader class instance (handle 7) and
two pixel-shader class instances bound. -/
def ctx0 : Backup.PipelineState :=
  { scissor_rects := [{ left := 0, top := 0, right := 100, bottom := 100 }]
    viewports := [{ top_left_x := 0, top_left_y := 0, width := 800, height := 600,
                    min_depth := 0, max_depth := 1 }]
    raster_state := some 1
    blend_state := some 2, blend_factor := [1, 0, 0, 1], blend_mask := 5
    depth_stencil_state := some 3, stencil_ref := 7
    pixel_shader_resource := some 4
    sampler := some 5
    vertex_shader := some 6, vertex_shader_instances := [7]
    geometry_shader := none, geometry_shader_instances := []
    pixel_shader := some 8, pixel_shader_instances := [9, 10]
    constant_buffer := some 11, primitive_topology := 4
    index_buffer := some 12, index_buffer_format := 42, index_buffer_offset := 3
    vertex_buffer := some 13, vertex_buffer_strides := 32, vertex_buffer_offsets := 0
    input_layout := some 14 }

/-- Concrete pipeline state after the overlay's own mutations (the state
the context is in when `restore` runs). -/
def ctxMut : Backup.PipelineState :=
  { ctx0 with
      scissor_rects := [{ left := 5, top := 5, right := 50, bottom := 50 }]
      raster_state := some 99
      blend_state := some 98
      vertex_shader := some 97, vertex_shader_instances := []
      pixel_shader := some 96, pixel_shader_instances := []
      primitive_topology := 5
      input_layout := some 95 }

/-- Concrete texture id for the delta fixtures. -/
def id0 : TextureId := TextureId.user 5

/-- Concrete 2×2 single-channel image. -/
def img0 : Texture.ImageData := Texture.ImageData.alpha 2 2 [1, 2, 3, 4]

/-- Concrete set-delta carrying a sub-region origin (a partial update). -/
def d0 : Texture.ImageDelta := { image := img0, pos := some (1, 1) }

/-- Concrete textures delta: one partial-update entry, nothing freed. -/
def delta0 : Texture.TexturesDelta := { set := [(id0, d0)], free := [] }

/-- Concrete collector environment: no modifier keys down, empty
clipboard. -/
def env0 : Input.Env :=
  { ctrl_down := false, shift_down := false, clipboard := none
    screen := { x := 800, y := 600 }, time := 0 }

/-- Concrete collector environment with the control key held and
clipboard text available. -/
def envCtrl : Input.Env :=
  { ctrl_down := true, shift_down := false, clipboard := some "hi"
    screen := { x := 800, y := 600 }, time := 0 }

/-- Claim C1 (code bug exhibit): `convert_meshes` keeps exactly the draws
whose index list is empty and drops a valid triangle, the opposite of
the contract "keep non-zero index counts that are multiples of three"
(the filter in mesh.rs line 115 reads `is_empty()` where the contract
needs `!is_empty()`): on the input `[triangleDraw, quadIdxDraw,
emptyDraw]` the result is the converted `emptyDraw` alone, and its index
count is 0. -/
theorem convert_meshes_keeps_only_empty_exhibit :
    MeshMod.convert_meshes [triangleDraw, quadIdxDraw, emptyDraw] =
      [MeshMod.GpuMesh.ofClipped emptyDraw]
    ∧ (MeshMod.GpuMesh.ofClipped emptyDraw).indices = []
    ∧ triangleDraw.mesh.indices.length = 3 := by
  exact ⟨rfl, rfl, rfl⟩

/-- Claim C2 (code bug exhibit): the snapshot/restore claim fails on the
program's first save/restore cycle, and the class-instance references
are never released.  With a fresh snapshot (counts 0 from
`derive(Default)`), `save` passes capacity 0 to `RSGetScissorRects` /
`RSGetViewports`, so no rect/viewport data is captured even though the
bound counts are, and the matching `restore` writes one zeroed scissor
rect and one zeroed viewport back instead of `ctx0`'s — the fields read
after restore do NOT equal the fields before save.  Independently, the
snapshot still holds the vertex- and pixel-stage class-instance
references after restore (`ClassInstances::release` drops the shared
references produced by `iter()`, a no-op).  From the second cycle on the
counts left by the previous save make the capture complete, and the
write-back then does return every captured field to its pre-save value
(final conjunct). -/
theorem backup_first_save_data_loss_and_unreleased_instances :
    ctx0.scissor_rects = [{ left := 0, top := 0, right := 100, bottom := 100 }]
    ∧ (Backup.InnerState.restore (Backup.InnerState.save Backup.InnerState.default ctx0)
        ctxMut).snd.scissor_rects = [Backup.zeroScissorRect]
    ∧ [({ left := 0, top := 0, right := 100, bottom := 100 } : App.ScissorRect)]
        ≠ [Backup.zeroScissorRect]
    ∧ (Backup.InnerState.restore (Backup.InnerState.save Backup.InnerState.default ctx0)
        ctxMut).snd.viewports = [Backup.zeroViewport]
    ∧ ctx0.viewports ≠ [Backup.zeroViewport]
    ∧ (Backup.InnerState.restore (Backup.InnerState.save Backup.InnerState.default ctx0)
        ctxMut).fst.vertex_shader_instances = [7]
    ∧ (Backup.InnerState.restore (Backup.InnerState.save Backup.InnerState.default ctx0)
        ctxMut).fst.pixel_shader_instances = [9, 10]
    ∧ (Backup.InnerState.restore
        (Backup.InnerState.save
          (Backup.InnerState.restore (Backup.InnerState.save Backup.InnerState.default ctx0)
            ctxMut).fst ctx0) ctxMut).snd = ctx0 := by
  exact ⟨rfl, rfl, by decide, rfl, by decide, rfl, rfl, rfl⟩

/-- Claim C8: `collect_input` drains the queue — the queue left behind is
empty, and a second `collect_input` with no intervening messages (in any
environment) returns a frame input with zero events. -/
theorem collect_input_drains_queue (env env2 : Input.Env) (events : List Input.Event) :
    (Input.collect_input env events).snd = []
    ∧ (Input.collect_input env2 (Input.collect_input env events).snd).fst.events = [] := by
  exact ⟨rfl, rfl⟩

/-- Claim C10: every frame input produced by `collect_input` has
`pixels_per_point = Some(1)`, `predicted_dt = 1/60` and the default
(all-false) modifier state, whatever the environment and queue. -/
theorem collect_input_constant_fields (env : Input.Env) (events : List Input.Event) :
    (Input.collect_input env events).fst.pixels_per_point = some 1
    ∧ (Input.collect_input env events).fst.predicted_dt = 1 / 60
    ∧ (Input.collect_input env events).fst.modifiers =
        { alt := false, ctrl := false, shift := false, mac_cmd := false, command := false } := by
  exact ⟨rfl, rfl, rfl⟩

/-- Claim C3 (counterexample): a set entry carrying a sub-region origin
for a texture id with no allocated entry does NOT make `resolve_delta`
fail — on the empty map and the partial-update delta `delta0` it
returns successfully, silently inserting a brand-new texture allocated
from the sub-region image. -/
theorem resolve_delta_partial_without_entry_proceeds :
    Texture.resolve_delta ([] : Texture.TexMap) delta0 =
      some (Texture.TexMap.insert ([] : Texture.TexMap) id0 (Texture.allocate_texture img0))
    ∧ (Texture.resolve_delta ([] : Texture.TexMap) delta0).isSome = true := by
  exact ⟨rfl, rfl⟩

/-- Claim C3 as amended: for every set entry with a sub-region origin
whose id has no existing entry, `resolve_delta` does not fail; it falls
back to the allocation path, inserting a brand-new texture built from
the delta image under that id. -/
theorem resolve_delta_partial_without_entry_allocates
    (m : Texture.TexMap) (id : TextureId) (d : Texture.ImageDelta)
    (hp : d.pos.isSome = true) (hm : Texture.TexMap.find m id = none) :
    Texture.resolve_delta m { set := [(id, d)], free := [] } =
      some (Texture.TexMap.insert m id (Texture.allocate_texture d.image)) := by
  obtain ⟨r, hr⟩ := Option.isSome_iff_exists.mp hp
  simp [Texture.resolve_delta, Texture.resolve_set_entry, hr, hm, List.foldlM]

/-- Witness for `resolve_delta_partial_without_entry_allocates` at the
concrete fixtures. -/
theorem resolve_delta_partial_without_entry_allocates_witness :
    d0.pos.isSome = true
    ∧ Texture.TexMap.find ([] : Texture.TexMap) id0 = none
    ∧ Texture.resolve_delta ([] : Texture.TexMap) { set := [(id0, d0)], free := [] } =
        some (Texture.TexMap.insert ([] : Texture.TexMap) id0 (Texture.allocate_texture d0.image)) :=
  ⟨rfl, rfl, resolve_delta_partial_without_entry_allocates ([] : Texture.TexMap) id0 d0 rfl rfl⟩

/-- Claim C4 (counterexample): `normalize_meshes` leaves clip rectangles
in pixel space — at screen size (800, 600) the mesh `gm0` keeps its
rect corner (0, 0), which differs from the clip-space point (-1, 1) the
claimed corner map would produce. -/
theorem normalize_rect_unchanged_exhibit :
    (App.normalize_meshes { x := 800, y := 600 } [gm0]).map MeshMod.GpuMesh.rect =
      [{ min := { x := 0, y := 0 }, max := { x := 800, y := 600 } }]
    ∧ clipOfPixel { x := 800, y := 600 } { x := 0, y := 0 } = { x := -1, y := 1 }
    ∧ ({ x := 0, y := 0 } : Pos2) ≠ ({ x := -1, y := 1 } : Pos2) := by
  refine ⟨rfl, ?_, by decide⟩
  simp only [clipOfPixel, Pos2.mk.injEq]
  norm_num

/-- Claim C4 as amended: `normalize_meshes` maps every vertex position by
the claimed pixel-to-clip formulas (with the spec's example points) but
applies no transformation to the clip rectangles, which stay in pixel
space. -/
theorem normalize_maps_vertex_positions_only (screen : Pos2) (meshes : List MeshMod.GpuMesh) :
    App.normalize_meshes screen meshes =
      meshes.map (fun m =>
        { m with vertices := m.vertices.map fun v => { v with pos := clipOfPixel screen v.pos } })
    ∧ (App.normalize_meshes screen meshes).map MeshMod.GpuMesh.rect =
        meshes.map MeshMod.GpuMesh.rect
    ∧ clipOfPixel { x := 800, y := 600 } { x := 400, y := 300 } = { x := 0, y := 0 }
    ∧ clipOfPixel { x := 800, y := 600 } { x := 0, y := 0 } = { x := -1, y := 1 }
    ∧ clipOfPixel { x := 800, y := 600 } { x := 800, y := 600 } = { x := 1, y := -1 } := by
  have hmap : App.normalize_meshes screen meshes =
      meshes.map (fun m =>
        { m with vertices := m.vertices.map fun v => { v with pos := clipOfPixel screen v.pos } }) := by
    simp only [App.normalize_meshes]
    refine List.map_congr_left fun m _ => ?_
    congr 1
    refine List.map_congr_left fun v _ => ?_
    congr 1
    simp [clipOfPixel, div_neg]
  refine ⟨hmap, ?_, ?_, ?_, ?_⟩
  · rw [hmap, List.map_map]
    rfl
  all_goals
  · simp only [clipOfPixel, Pos2.mk.injEq]
    norm_num

/-- Claim C5 (counterexample): the scissor corner is truncated toward zero,
not rounded to the nearest integer — mesh `gm1` has pixel-space corner
`max.x = 2.75`, the source binds scissor `right = 2`, while rounding to
the nearest integer pixel gives 3. -/
theorem scissor_truncation_exhibit :
    App.render_scissors { x := 800, y := 600 } [gm1] =
      [{ left := 0, top := 0, right := 2, bottom := 600 }]
    ∧ App.ratRoundNearest (11 / 4 : ℚ) = 3
    ∧ (2 : ℤ) ≠ 3 := by
  have e0 : App.ratTrunc (0 : ℚ) = 0 := by
    have h1 : (0 : ℚ).num = 0 := by norm_num
    have h2 : (0 : ℚ).den = 1 := by norm_num
    simp only [App.ratTrunc, h1, h2]
    decide
  have e1 : App.ratTrunc ((11 : ℚ) / 4) = 2 := by
    have h1 : ((11 : ℚ) / 4).num = 11 := by norm_num
    have h2 : ((11 : ℚ) / 4).den = 4 := by norm_num
    simp only [App.ratTrunc, h1, h2]
    decide
  have e2 : App.ratTrunc (600 : ℚ) = 600 := by
    have h1 : (600 : ℚ).num = 600 := by norm_num
    have h2 : (600 : ℚ).den = 1 := by norm_num
    simp only [App.ratTrunc, h1, h2]
    decide
  refine ⟨?_, ?_, by decide⟩
  · simp only [App.render_scissors, App.normalize_meshes, gm1, List.map_cons, List.map_nil,
      App.scissor_of]
    rw [e0, e1, e2]
  · norm_num [App.ratRoundNearest, round_eq]

/-- Claim C5 as amended: the scissor rectangle bound for each draw is
computed from the mesh's pre-normalization pixel-space clip rectangle —
normalization leaves `rect` untouched, so the scissor list derived after
normalization equals `scissor_of` (truncation toward zero of the corner
coordinates) applied to the original meshes. -/
theorem render_scissors_from_pixel_rect (screen : Pos2) (meshes : List MeshMod.GpuMesh) :
    App.render_scissors screen meshes = meshes.map App.scissor_of := by
  simp [App.render_scissors, App.normalize_meshes, List.map_map, App.scissor_of,
    Function.comp]

/-- Claim C6: `resize_buffers` performs release-before-resize-before-
rebuild — its step trace is exactly release of the held view, then the
original resize callback, then back-buffer fetch and creation of the new
view — and when the fresh-handle supply has not yet produced the held
handle (handles are allocated in increasing order, so `view <
next_handle` is the tracker's invariant) the view held after the call is
a new handle distinct from every pre-call handle. -/
theorem resize_buffers_order (s : Resize.RenderTargetState) (h : s.view < s.next_handle) :
    (Resize.resize_buffers s).snd =
      [Resize.ResizeEvent.release_view s.view, Resize.ResizeEvent.call_original,
       Resize.ResizeEvent.get_back_buffer, Resize.ResizeEvent.create_view s.next_handle]
    ∧ (Resize.resize_buffers s).fst.view = s.next_handle
    ∧ (Resize.resize_buffers s).fst.view ≠ s.view := by
  refine ⟨rfl, rfl, ?_⟩
  simp only [Resize.resize_buffers]
  omega

/-- Witness for `resize_buffers_order` at the concrete tracker state
`view = 0, next_handle = 1`. -/
theorem resize_buffers_order_witness :
    (0 : Nat) < 1
    ∧ ((Resize.resize_buffers { view := 0, next_handle := 1 }).snd =
        [Resize.ResizeEvent.release_view 0, Resize.ResizeEvent.call_original,
         Resize.ResizeEvent.get_back_buffer, Resize.ResizeEvent.create_view 1]
      ∧ (Resize.resize_buffers { view := 0, next_handle := 1 }).fst.view = 1
      ∧ (Resize.resize_buffers { view := 0, next_handle := 1 }).fst.view ≠ 0) :=
  ⟨by decide, resize_buffers_order { view := 0, next_handle := 1 } (by decide)⟩

/-- Claim C7 (counterexample): a key-down of the space bar (virtual key
0x20, recognized as `Key::Space`, not a copy/cut/paste shortcut)
appends a `Text(" ")` event, not a `Key` event — refuting "otherwise
exactly one Key event (pressed = true)". -/
theorem process_space_keydown_text_exhibit :
    Input.process env0 [] Input.WM_KEYDOWN 0x20 0 = ([Input.Event.text " "], true)
    ∧ Input.get_key 0x20 = some Input.Key.space
    ∧ Input.Event.isKeyEvent (Input.Event.text " ") = false := by
  exact ⟨rfl, rfl, rfl⟩

/-- Claim C7 as amended: for every key-down message whose virtual key
maps to a recognized key, `process` appends exactly these events and
returns true: `Text(" ")` for Space; for Ctrl+V one pasted-text event
when clipboard text is available and nothing otherwise; `Copy` for
Ctrl+C; `Cut` for Ctrl+X; otherwise exactly one `Key` event with
`pressed = true`. -/
theorem process_keydown_event_map (env : Input.Env) (events : List Input.Event)
    (umsg wparam lparam : Nat) (k : Input.Key)
    (hmsg : umsg = Input.WM_KEYDOWN ∨ umsg = Input.WM_SYSKEYDOWN)
    (hkey : Input.get_key wparam = some k) :
    Input.process env events umsg wparam lparam =
      (events ++
        (if k = Input.Key.space then [Input.Event.text " "]
         else if k = Input.Key.keyV ∧ env.ctrl_down then
           (match env.clipboard with
            | some s => [Input.Event.text s]
            | none => [])
         else if k = Input.Key.keyC ∧ env.ctrl_down then [Input.Event.copy]
         else if k = Input.Key.keyX ∧ env.ctrl_down then [Input.Event.cut]
         else [Input.Event.key k true (Input.get_key_modifiers env umsg)]), true) := by
  rcases hmsg with h | h <;> subst h <;>
    simp only [Input.process, Input.WM_KEYDOWN, Input.WM_SYSKEYDOWN, Input.WM_MOUSEMOVE,
      Input.WM_LBUTTONDOWN, Input.WM_LBUTTONDBLCLK, Input.WM_LBUTTONUP, Input.WM_RBUTTONDOWN,
      Input.WM_RBUTTONDBLCLK, Input.WM_RBUTTONUP, Input.WM_MBUTTONDOWN, Input.WM_MBUTTONDBLCLK,
      Input.WM_MBUTTONUP, Input.WM_CHAR, Input.WM_MOUSEWHEEL, Input.WM_MOUSEHWHEEL] <;>
    norm_num <;>
    simp only [hkey, Input.get_key_modifiers, Input.WM_SYSKEYDOWN, beq_iff_eq,
      Bool.and_eq_true, decide_eq_true_eq] <;>
    rcases env.clipboard with _ | s <;>
    split_ifs <;> simp

/-- Witness for `process_keydown_event_map`: Ctrl+X key-down with the
control key held appends exactly one `Cut` event. -/
theorem process_keydown_event_map_witness :
    (Input.WM_KEYDOWN = Input.WM_KEYDOWN ∨ Input.WM_KEYDOWN = Input.WM_SYSKEYDOWN)
    ∧ Input.get_key 0x58 = some Input.Key.keyX
    ∧ Input.process envCtrl [] Input.WM_KEYDOWN 0x58 0 = ([Input.Event.cut], true) := by
  refine ⟨Or.inl rfl, rfl, ?_⟩
  rw [process_keydown_event_map envCtrl [] Input.WM_KEYDOWN 0x58 0 Input.Key.keyX
    (Or.inl rfl) rfl]
  rfl

/-- Claim C9: `wnd_proc` returns true for every message, including ones
`process` does not recognize; for a message id outside the recognized
set, `process` returns false and leaves the queue unchanged. -/
theorem wnd_proc_true_process_default_false (env : Input.Env) (events : List Input.Event)
    (umsg wparam lparam : Nat) :
    (Input.wnd_proc env events umsg wparam lparam).snd = true
    ∧ (umsg ∉ Input.recognizedMsgs →
        Input.process env events umsg wparam lparam = (events, false)) := by
  refine ⟨rfl, fun h => ?_⟩
  simp only [Input.recognizedMsgs, List.mem_cons, List.not_mem_nil, or_false, not_or,
    Input.WM_MOUSEMOVE, Input.WM_LBUTTONDOWN, Input.WM_LBUTTONDBLCLK, Input.WM_LBUTTONUP,
    Input.WM_RBUTTONDOWN, Input.WM_RBUTTONDBLCLK, Input.WM_RBUTTONUP, Input.WM_MBUTTONDOWN,
    Input.WM_MBUTTONDBLCLK, Input.WM_MBUTTONUP, Input.WM_CHAR, Input.WM_MOUSEWHEEL,
    Input.WM_MOUSEHWHEEL, Input.WM_KEYDOWN, Input.WM_SYSKEYDOWN, Input.WM_KEYUP,
    Input.WM_SYSKEYUP] at h
  obtain ⟨h1, h2, h3, h4, h5, h6, h7, h8, h9, h10, h11, h12, h13, h14, h15, h16, h17⟩ := h
  simp [Input.process, Input.WM_MOUSEMOVE, Input.WM_LBUTTONDOWN, Input.WM_LBUTTONDBLCLK,
    Input.WM_LBUTTONUP, Input.WM_RBUTTONDOWN, Input.WM_RBUTTONDBLCLK, Input.WM_RBUTTONUP,
    Input.WM_MBUTTONDOWN, Input.WM_MBUTTONDBLCLK, Input.WM_MBUTTONUP, Input.WM_CHAR,
    Input.WM_MOUSEWHEEL, Input.WM_MOUSEHWHEEL, Input.WM_KEYDOWN, Input.WM_SYSKEYDOWN,
    Input.WM_KEYUP, Input.WM_SYSKEYUP, h1, h2, h3, h4, h5, h6, h7, h8, h9, h10, h11, h12, h13,
    h14, h15, h16, h17]

/-- Witness for `wnd_proc_true_process_default_false` at the unrecognized
message id 1 (`WM_CREATE`). -/
theorem wnd_proc_true_process_default_false_witness :
    (Input.wnd_proc env0 [] 1 0 0).snd = true
    ∧ Input.process env0 [] 1 0 0 = ([], false) :=
  ⟨(wnd_proc_true_process_default_false env0 [] 1 0 0).1,
   (wnd_proc_true_process_default_false env0 [] 1 0 0).2 (by decide)⟩

end EguiD3D11
